import Mathlib

/-!
# SOSIX browser agent — verification of spec claims

Shallow embedding of the SOSIX autonomous browser agent (Python) in Lean 4.
Each module of the repository that the claims touch is embedded as executable
Lean definitions translated from the corresponding Python source:

* `DV`        — `decision_validator.py` (parse/validate LLM decisions)
* `Api`       — `nvidia_api.py` (`_call_with_retry`: retry/429/back-off and
                conversation-history handling)
* `Exec`      — `action_executor.py` (locator building, `click`, `scroll`,
                `close_modal`, `press_key`)
* `PA`        — `page_analyzer.py` (modal detection and the modal gate of the
                search-hints builder)
* `Agent`     — `browser_agent.py` (`_execute_decision` dispatch, per-task
                state resets, the iterative loop's error handling and
                circuit breakers)

Browser, network and operator interactions are modelled as explicit inputs
(oracles / event lists); every browser operation an execution performs is
recorded in a trace so that "never reaches the Action Executor"-style
properties are expressible.
-/

namespace Sosix

/-- Python-style truthiness for an optional string: `None` and `""` are falsy. -/
def strTruthy : Option String → Bool
  | none => false
  | some s => s ≠ ""

/-- Evaluates `x or ""` on an optional string (Python `(d.get(k) or "")`). -/
def orEmpty : Option String → String
  | none => ""
  | some s => s

/-- Association-list lookup, modelling `dict.get(key)`. -/
def dictGet (d : List (String × String)) (k : String) : Option String :=
  (d.find? (fun p => p.1 == k)).map Prod.snd

/-- Lookup with default, modelling `dict.get(key, default)`. -/
def dictGetD (d : List (String × String)) (k : String) (dflt : String) : String :=
  (dictGet d k).getD dflt

/-- Substring test on character lists (used for Python's `in` on strings). -/
def containsSub (hay needle : String) : Bool :=
  decide (needle.toList <:+: hay.toList)

/-- Models Python `str.lower()` by character-wise lowercasing.  (The
embedding avoids `String.toLower` and friends because their runtime
implementations do not reduce inside the kernel; these list-based versions
agree on the ASCII data the agent handles and evaluate by `rfl`/`decide`.) -/
def pyLower (s : String) : String :=
  ⟨s.data.map Char.toLower⟩

/-- Models Python `str.strip()`: drop leading and trailing whitespace. -/
def pyStrip (s : String) : String :=
  ⟨((s.data.dropWhile Char.isWhitespace).reverse.dropWhile Char.isWhitespace).reverse⟩

/-- Models `str.startswith(pre)`. -/
def pyStartsWith (s pre : String) : Bool :=
  pre.data.isPrefixOf s.data

/-- Splits a character list on a non-empty separator; the fuel argument
(always instantiated to more than the list length) keeps the recursion
structural. -/
def splitOnCL (sep : List Char) : Nat → List Char → List Char → List (List Char)
  | 0, l, acc => [acc.reverse ++ l]
  | _ + 1, [], acc => [acc.reverse]
  | fuel + 1, c :: rest, acc =>
    if sep.isPrefixOf (c :: rest) && !sep.isEmpty then
      acc.reverse :: splitOnCL sep fuel ((c :: rest).drop sep.length) []
    else splitOnCL sep fuel rest (c :: acc)

/-- Models `str.split(sep)` for a non-empty separator. -/
def pySplitOn (s sep : String) : List String :=
  (splitOnCL sep.data (s.data.length + 1) s.data []).map (fun l => ⟨l⟩)

/-- Replaces every occurrence of a non-empty pattern; fuel-structural. -/
def replaceCL (old new : List Char) : Nat → List Char → List Char
  | 0, l => l
  | _ + 1, [] => []
  | fuel + 1, c :: rest =>
    if old.isPrefixOf (c :: rest) && !old.isEmpty then
      new ++ replaceCL old new fuel ((c :: rest).drop old.length)
    else c :: replaceCL old new fuel rest

/-- Models `str.replace(old, new)` for a non-empty pattern. -/
def pyReplace (s old new : String) : String :=
  ⟨replaceCL old.data new.data (s.data.length + 1) s.data⟩

/-- Parses a non-empty all-digit character list as a decimal `Nat`. -/
def pyToNat : List Char → Option Nat
  | [] => none
  | l =>
    if l.all Char.isDigit then
      some (l.foldl (fun a c => a * 10 + (c.toNat - '0'.toNat)) 0)
    else none

end Sosix

namespace Sosix.DV

/-!
## `decision_validator.py` — `DecisionValidator.validate_full_decision`

The decision object is the JSON dict produced by `parse_decision`; only the
fields `validate_full_decision` reads are carried.  `value` may be a JSON
string, number, or something else (`DVal`), matching the `isinstance`
dispatch at `decision_validator.py:100-105`.
-/

/-- A JSON value as read from the decision's `value` field. -/
inductive DVal where
  | str (s : String)
  | int (n : Int)
  | other
  deriving Repr, DecidableEq

/-- The parsed decision dict, restricted to the keys
`validate_full_decision` reads. `none` models an absent key. -/
structure Decision where
  action : Option String
  strategy : Option String
  args : Option (List (String × String))
  value : Option DVal
  target : Option String
  deriving Repr, DecidableEq

/-- Renders `str(value)` for an int (Python decimal rendering). -/
def intStr (n : Int) : String := toString n

/-- The `value` normalisation at `decision_validator.py:98-105`:
ints/floats are stringified, strings are stripped, anything else becomes `""`.
(`decision.get("value", "")` defaults to the empty string.) -/
def normValue : Option DVal → String
  | none => ""
  | some (.str s) => pyStrip s
  | some (.int n) => intStr n
  | some .other => ""

/-- The eleven valid actions (`decision_validator.py:107-110`). -/
def validActions : List String :=
  ["click", "fill", "type", "submit", "scroll", "goto",
   "wait", "ask_user", "wait_for_user_action", "confirm_complete", "press_key"]

/-- The valid locator strategies (`decision_validator.py:124`). -/
def validStrategies : List String :=
  ["role", "text", "label", "placeholder", "css", "aria-label", "id"]

/-- Models `int(value or 1000)` for the `wait` action: Python `int()` accepts
an optionally signed decimal string (with surrounding whitespace already
stripped); anything else raises `ValueError`. -/
def pyInt (s : String) : Option Int :=
  let t := pyStrip s
  let core := if pyStartsWith t "-" || pyStartsWith t "+" then ⟨t.data.drop 1⟩ else t
  match pyToNat core.data with
  | some n => some (if pyStartsWith t "-" then -(n : Int) else (n : Int))
  | none => none

/-- Embeds `DecisionValidator.validate_full_decision`
(`decision_validator.py:85-158`), returning the `(is_valid, reason)` pair.
Note `if not args or not isinstance(args, dict)` fires on an empty dict
(Python `not {}` is true), so the dedicated `len(args) == 0` check below it
is unreachable; the embedding mirrors that order. -/
def validateFullDecision (d : Decision) : Bool × String :=
  let action := pyStrip (pyLower (orEmpty d.action))
  let strategy := pyStrip (pyLower (orEmpty d.strategy))
  let args := d.args.getD []
  let value := normValue d.value
  if ¬ validActions.contains action then
    (false, "Неизвестное действие: '" ++ action ++ "'")
  else
    let locatorActions := ["click", "fill", "type", "submit"]
    if locatorActions.contains action ∧ strategy = "" then
      (false, "Действие '" ++ action ++
        "' требует 'strategy' (role, text, label, placeholder, aria-label, id)")
    else if locatorActions.contains action ∧ ¬ validStrategies.contains strategy then
      (false, "Неизвестная strategy '" ++ strategy ++ "'")
    else if locatorActions.contains action ∧ args.length = 0 then
      (false, "Действие '" ++ action ++ "' требует 'args' (dict с параметрами локатора)")
    else if ["fill", "type"].contains action ∧ value = "" then
      (false, "Действие '" ++ action ++ "' требует 'value' с текстом")
    else if action = "goto" ∧ ¬ strTruthy d.target then
      (false, "Действие 'goto' требует 'target' с URL")
    else if action = "goto" ∧
        ¬ (pyStartsWith (orEmpty d.target) "http://" ∨
           pyStartsWith (orEmpty d.target) "https://") then
      (false, "URL должен начинаться с http:// или https://")
    else if action = "wait" then
      match pyInt (if value = "" then "1000" else value) with
      | some n => if n < 0 ∨ n > 60000 then (false, "Время ожидания должно быть 0-60000мс") else (true, "")
      | none => (false, "Действие 'wait' требует числовое 'value'")
    else if action = "scroll" ∧ value ≠ "" ∧
        ¬ (["up", "down"].contains (pyLower value)) then
      (false, "Направление должно быть 'up' или 'down'")
    else
      (true, "")

end Sosix.DV

namespace Sosix.Api

/-!
## `nvidia_api.py` — `NvidiaAPIClient._call_with_retry` and history handling

The HTTP transport is modelled as a list of `HttpEvent`s, one consumed per
`requests.post` issued by the retry loop.  For a 200 response the extracted
assistant text (`choices[0].message.content`, with the `text`/`content`
fallbacks already applied and `response_text or ""` normalisation folded in)
is carried directly.  Sleeps (`time.sleep`) are recorded in seconds.
-/

/-- One role-tagged conversation message (`nvidia_api.py:13-20`). -/
structure Message where
  role : String
  content : String
  deriving Repr, DecidableEq

/-- Transport outcome of a single HTTP POST attempt. -/
inductive HttpEvent where
  | ok (text : String)
  | okNoChoices
  | status (code : Nat)
  | connError (name : String)
  deriving Repr, DecidableEq

/-- Retry budget `self.max_retries` (`nvidia_api.py:41`). -/
def maxRetries : Nat := 3

/-- Base back-off delay `self.retry_delay_base` in seconds (`nvidia_api.py:42`). -/
def retryDelayBase : Nat := 1

/-- Messages of the request body built by `_build_payload`
(`nvidia_api.py:61-65`): the stored history (only when `use_history`)
followed by the current user message.  The user message is placed in the
request only — `_build_payload` does not mutate `conversation_history`. -/
def buildPayloadMessages (history : List Message) (useHistory : Bool)
    (message : String) : List Message :=
  (if useHistory then history else []) ++ [⟨"user", message⟩]

/-- Result of the retry loop. `ok` carries the assistant text, the
conversation history after the call, the sleep trace, and the value of the
`attempt` counter at the moment of success; `raised` is a propagating
exception.  `exhaustedEvents` is a modelling artefact (the supplied
transport trace ran out while the loop would have continued);
`fellThrough` is Python's implicit `return None` after the `while`
condition fails, unreachable from `attempt = 0`. -/
inductive CallOutcome where
  | ok (text : String) (history : List Message) (sleeps : List Nat) (attemptsUsed : Nat)
  | raised (msg : String) (history : List Message) (sleeps : List Nat)
  | exhaustedEvents (sleeps : List Nat)
  | fellThrough (sleeps : List Nat)
  deriving Repr, DecidableEq

/-- Embeds `NvidiaAPIClient._call_with_retry` (`nvidia_api.py:81-130`).

* status 429: sleep 10 s and `continue` without touching `attempt`
  (`nvidia_api.py:91-96`);
* other non-200 status: `raise Exception("API Ошибка <code>")`, which the
  `except Exception` arm re-raises (`nvidia_api.py:98-100,128-130`);
* 200 with missing/empty `choices`: `raise Exception("Неверный формат
  ответа API")`, re-raised the same way (`nvidia_api.py:116`);
* 200 with text: if `use_history` and the text is non-empty, append an
  assistant message to history, return the text (`nvidia_api.py:102-115`);
* connection-level error: `attempt += 1`; if budget remains sleep
  `retry_delay_base * 2^(attempt-1)` seconds and retry, else re-raise
  (`nvidia_api.py:118-127`). -/
def callWithRetry (useHistory : Bool) (history : List Message)
    (attempt : Nat) (sleeps : List Nat) : List HttpEvent → CallOutcome
  | [] =>
      if attempt < maxRetries then .exhaustedEvents sleeps else .fellThrough sleeps
  | e :: rest =>
      if attempt < maxRetries then
        match e with
        | .status 429 => callWithRetry useHistory history attempt (sleeps ++ [10]) rest
        | .status c => .raised ("API Ошибка " ++ toString c) history sleeps
        | .okNoChoices => .raised "Неверный формат ответа API" history sleeps
        | .ok text =>
            let history2 :=
              if useHistory ∧ text ≠ "" then history ++ [⟨"assistant", text⟩] else history
            .ok text history2 sleeps attempt
        | .connError name =>
            let attempt2 := attempt + 1
            if attempt2 < maxRetries then
              callWithRetry useHistory history attempt2
                (sleeps ++ [retryDelayBase * 2 ^ (attempt2 - 1)]) rest
            else .raised name history sleeps
      else .fellThrough sleeps

end Sosix.Api

namespace Sosix.Dom

/-!
## Page model

A rendered page is a list of elements in document order.  Each element
carries what the Playwright locator engine and the analyzer read: tag name,
computed ARIA role, rendered inner text, accessible name, accessible label,
attributes, visibility and bounding-box height.  A locator is the sub-list
of elements it resolves to, in document order.
-/

/-- One rendered DOM element. -/
structure PElem where
  tag : String := "div"
  role : String := ""
  text : String := ""
  accName : String := ""
  labelText : String := ""
  attrs : List (String × String) := []
  visible : Bool := true
  height : Option Nat := none
  deriving Repr, DecidableEq

/-- A page is its elements in document order. -/
abbrev Page := List PElem

/-- Attribute lookup, `element.get_attribute(name)`. -/
def attr (e : PElem) (name : String) : Option String :=
  dictGet e.attrs name

/-- Case-insensitive substring match, the default (`exact=False`) matching of
Playwright's text/label/placeholder engines. -/
def containsI (hay needle : String) : Bool :=
  containsSub (pyLower hay) (pyLower needle)

end Sosix.Dom

namespace Sosix.Exec

open Sosix.Dom

/-!
## `action_executor.py` — locator building and actions

Locator args are JSON values: strings or booleans (`is_link`).  Driver
actions are modelled on the page model above; key presses are returned as a
trace.  The model is single-tab: the new-tab bookkeeping after a click
(`action_executor.py:269-301`) compares page counts in the browser context,
which never change here, so that branch is not taken.
-/

/-- A locator-argument value as it arrives from the decision JSON. -/
inductive AVal where
  | s (v : String)
  | b (v : Bool)
  deriving Repr, DecidableEq

/-- The `args` dict of a locator. -/
abbrev Args := List (String × AVal)

/-- String-valued lookup with `""` default: `args.get(k, "")` at the sites
that read a string. -/
def argStr (a : Args) (k : String) : String :=
  match (a.find? (fun p => p.1 == k)).map Prod.snd with
  | some (.s v) => v
  | some (.b _) => ""
  | none => ""

/-- String-valued lookup with an explicit default: `args.get(k, dflt)`. -/
def argStrD (a : Args) (k : String) (dflt : String) : String :=
  match (a.find? (fun p => p.1 == k)).map Prod.snd with
  | some (.s v) => v
  | some (.b _) => dflt
  | none => dflt

/-- Truthiness of `args.get(k, False)` (used for `is_link`). -/
def argTruthy (a : Args) (k : String) : Bool :=
  match (a.find? (fun p => p.1 == k)).map Prod.snd with
  | some (.s v) => v ≠ ""
  | some (.b v) => v
  | none => false

/-- Elements matched by `get_by_role(role)`: computed ARIA role equality. -/
def getByRole (page : Page) (role : String) : List PElem :=
  page.filter (fun e => e.role == role)

/-- Elements matched by `get_by_role(role, name=n)`: Playwright matches the
accessible name case-insensitively by substring when `exact` is unset. -/
def getByRoleName (page : Page) (role n : String) : List PElem :=
  page.filter (fun e => e.role == role && containsI e.accName n)

/-- Elements matched by `get_by_label(t)`: accessible label (associated
`<label>` text or `aria-label`), case-insensitive substring. -/
def getByLabel (page : Page) (t : String) : List PElem :=
  page.filter (fun e => containsI e.labelText t)

/-- Elements matched by `get_by_text(t, exact=False)`: rendered text,
case-insensitive substring. -/
def getByText (page : Page) (t : String) : List PElem :=
  page.filter (fun e => containsI e.text t)

/-- Elements matched by an attribute-substring/equality predicate. -/
def byAttrEq (page : Page) (name value : String) : List PElem :=
  page.filter (fun e => attr e name == some value)

/-- Elements matched by `get_by_placeholder` / `get_by_alt_text` /
`get_by_title` (case-insensitive substring on the attribute). -/
def byAttrContains (page : Page) (name value : String) : List PElem :=
  page.filter (fun e => containsI ((attr e name).getD "") value)

/-- Evaluates `locator.filter(has_text=t)`. -/
def filterHasText (loc : List PElem) (t : String) : List PElem :=
  loc.filter (fun e => containsI e.text t)

/-- Evaluates `locator.first` (list form: at most one element). -/
def locFirst (loc : List PElem) : List PElem :=
  loc.take 1

/-- Embeds `ActionExecutor._build_locator_from_strategy`
(`action_executor.py:19-165`).  Returns the resolved element list; the
`:invalid` sentinel locator matches nothing and is the empty list.
Note the `text` branch returns `.first` on every path
(`action_executor.py:84,86,89`), so a `text` locator never resolves to more
than one element. -/
def buildLocatorFromStrategy (page : Page) (strategy : String) (args : Args) :
    List PElem :=
  if strategy == "role" then
    let role := argStrD args "role" "button"
    let name := argStr args "name"
    if name ≠ "" then getByRoleName page role name else getByRole page role
  else if strategy == "label" then
    let labelText := argStr args "label"
    if labelText ≠ "" then getByLabel page labelText else []
  else if strategy == "placeholder" then
    let placeholder := argStr args "placeholder"
    if placeholder ≠ "" then byAttrContains page "placeholder" placeholder
    else locFirst (getByRole page "textbox")
  else if strategy == "text" then
    let text := argStr args "text"
    if text ≠ "" then
      let isLink := argTruthy args "is_link"
      let linkContext := argStr args "context"
      if isLink then
        if linkContext ≠ "" then
          locFirst (filterHasText (filterHasText (getByRole page "link") linkContext) text)
        else
          locFirst (filterHasText (getByRole page "link") text)
      else
        locFirst (getByText page text)
    else []
  else if strategy == "alt" then
    let altText := argStr args "alt"
    if altText ≠ "" then byAttrContains page "alt" altText else []
  else if strategy == "title" then
    let title := argStr args "title"
    if title ≠ "" then byAttrContains page "title" title else []
  else if strategy == "testid" then
    let testid := argStr args "testid"
    if testid ≠ "" then byAttrEq page "data-testid" testid else []
  else if strategy == "id" then
    let elementId := argStr args "id"
    if elementId ≠ "" then byAttrEq page "id" elementId else []
  else if strategy == "name" then
    let name := argStr args "name"
    if name ≠ "" then byAttrEq page "name" name else []
  else if pyStartsWith strategy "data-" then
    let attrValue := argStr args strategy
    if attrValue ≠ "" then byAttrEq page strategy attrValue else []
  else if strategy == "aria-label" then
    let ariaLabel := argStr args "aria-label"
    if ariaLabel ≠ "" then getByLabel page ariaLabel else []
  else []

end Sosix.Exec

namespace Sosix.Exec

open Sosix.Dom

/-- One entry of a `variants` list in a multiple-matches result
(`action_executor.py:243-259`); `domain`/`href` are present only for the
link-described variants. -/
structure Variant where
  index : Nat
  text : String
  domain : Option String := none
  href : Option String := none
  deriving Repr, DecidableEq

/-- Result dict returned by the executor actions; absent keys are `none`,
`success := true` stands for `{"success": True}`. -/
structure RDict where
  success : Bool := false
  error : Option String := none
  reason : Option String := none
  count : Option Nat := none
  suggestion : Option String := none
  variants : List Variant := []
  message : Option String := none
  key : Option String := none
  deriving Repr, DecidableEq

/-- Extracts `urllib.parse.urlparse(href).netloc` for the absolute URLs the
variant builder sees (the `or parsed.scheme` fallback yields `""` for the
relative URLs this simplification maps to `""`). -/
def urlDomain (href : String) : String :=
  match pySplitOn href "://" with
  | _ :: rest :: more =>
      (pySplitOn (String.intercalate "://" (rest :: more)) "/").headD ""
  | _ => ""

/-- Builds the first-line label of a link variant
(`action_executor.py:241`): first text line, stripped, first 50 characters,
or `"untitled"` for an empty text. -/
def linkFirstLine (e : PElem) : String :=
  if e.text == "" then "untitled"
  else (pyStrip ((pySplitOn e.text "\n").headD "")).take 50

/-- Builds one link variant (`action_executor.py:230-248`). -/
def linkVariant (i : Nat) (e : PElem) : Variant :=
  let href := (attr e "href").getD ""
  { index := i
    text := linkFirstLine e
    domain := some (if href ≠ "" then urlDomain href else "unknown")
    href := some (href.take 60) }

/-- Builds the fallback variants `[{"text": "Multiple matches", "index": i}
for i in range(min(count, 3))]` (`action_executor.py:259`). -/
def defaultVariants (count : Nat) : List Variant :=
  (List.range (min count 3)).map (fun i => { index := i, text := "Multiple matches" })

/-- Classifies a driver exception message for `click`
(`action_executor.py:310-324`). -/
def classifyClickError (msg : String) : String :=
  if containsSub msg "not visible" || containsSub msg "not in viewport" then
    "Element not visible to user (off-screen or hidden)"
  else if containsSub msg "disabled" || containsSub msg "not enabled" then
    "Element is disabled"
  else if containsSub msg "not stable" then
    "Element not stable in DOM (moving or detached)"
  else if containsSub msg "no element matches" || containsSub msg "no such element" then
    "Element not found in DOM"
  else if containsSub msg "pointer-events" then
    "Element cannot receive events (pointer-events)"
  else if containsSub msg "hidden behind" || containsSub msg "covered" then
    "Element covered by another element"
  else msg.take 100

/-- Models the driver-level `locator.click()`: a locator resolving to more
than one element raises a strict-mode violation; a hidden single element
fails actionability (stability/enabled/overlap conditions are not
represented — fixture elements carry only visibility); a visible single
element is clicked. -/
def driverClick (loc : List PElem) : Except String PElem :=
  match loc with
  | [] => .error "no element matches the locator"
  | [e] =>
      if e.visible then .ok e
      else .error "Timeout 5000ms exceeded: element is not visible"
  | _ => .error ("strict mode violation: locator resolved to " ++
      toString loc.length ++ " elements")

/-- Embeds `ActionExecutor.click` (`action_executor.py:167-326`).  Returns
the result dict together with the element actually clicked (an observation
of the driver call, `none` when no click happened).  The new-tab handling
after a successful click (`action_executor.py:269-301`) only rebinds pages
when the context's page count grew, which cannot happen in this single-tab
model. -/
def click (page : Page) (locatorStrategy : String) (locatorArgs : Args)
    (allowMultiple : Bool := false) : RDict × Option PElem :=
  if locatorStrategy == "" || locatorArgs.isEmpty then
    ({ error := some "invalid_params", reason := some "strategy or args empty" }, none)
  else
    let locator := buildLocatorFromStrategy page locatorStrategy locatorArgs
    let count := locator.length
    if count == 0 then
      ({ error := some "element_not_found" }, none)
    else if count > 1 && !allowMultiple then
      let isLink := locatorStrategy == "text" && argTruthy locatorArgs "is_link"
      let variants :=
        if isLink && count ≤ 5 then
          (locator.take 5).enum.map (fun p => linkVariant p.1 p.2)
        else []
      ({ error := some "multiple_matches"
         count := some count
         suggestion := some ("Найдено " ++ toString count ++
           " совпадений. Время LLM выбрать более конкретный вариант используя контекст результата поиска.")
         variants := if variants.isEmpty then defaultVariants count else variants
         reason := some ("Модель предоставила неточный селектор - найдено " ++
           toString count ++
           " элементов вместо 1. Переформулируй условие для клика (добавь платформу, автора, источник и т.д.)") },
       none)
    else
      match driverClick locator with
      | .ok e => ({ success := true }, some e)
      | .error msg =>
          ({ error := some "actionability", reason := some (classifyClickError msg) }, none)

/-- Embeds `ActionExecutor.scroll` (`action_executor.py:544-571`): returns
the PageUp/PageDown key presses issued and the boolean result.  A direction
that is neither `up` nor `down` (case-insensitive) skips both loops and
still returns `True`. -/
def scroll (direction : String) (amount : Nat := 3) : List String × Bool :=
  if pyLower direction == "down" then (List.replicate amount "PageDown", true)
  else if pyLower direction == "up" then (List.replicate amount "PageUp", true)
  else ([], true)

/-- Embeds `ActionExecutor.press_key` (`action_executor.py:573-612`):
returns the result dict and the keys pressed.  Key presses on the model
page do not raise. -/
def pressKey (page : Page) (key : String) (locatorStrategy : String := "")
    (locatorArgs : Args := []) : RDict × List String :=
  if locatorStrategy ≠ "" && !locatorArgs.isEmpty then
    let locator := buildLocatorFromStrategy page locatorStrategy locatorArgs
    let count := locator.length
    if count == 0 then ({ error := some "element_not_found" }, [])
    else ({ success := true }, [key])
  else
    ({ success := true }, [key])

/-- The methods defined on `ActionExecutor` (`action_executor.py`, class
body).  Python resolves `self.<name>` against this set; a name outside it
raises `AttributeError`. -/
def actionExecutorMethods : List String :=
  ["__init__", "_build_locator_from_strategy", "click", "fill", "type_text",
   "goto", "scroll", "press_key", "wait_for_user_action", "close_modal",
   "wait_for_timeout"]

/-- Models Python attribute resolution on the executor: `.ok` when the
method exists, `AttributeError` otherwise. -/
def attrLookup (name : String) : Except String Unit :=
  if actionExecutorMethods.contains name then .ok ()
  else .error ("'ActionExecutor' object has no attribute '" ++ name ++ "'")

/-- The `close_strategy` dict handed to `close_modal`. -/
structure CloseStrategy where
  type : Option String := none
  strategy : Option String := none
  args : Args := []
  deriving Repr, DecidableEq

/-- Embeds `ActionExecutor.close_modal` (`action_executor.py:640-721`),
returning the result dict and the keys pressed.  Every Escape path invokes
`self.key_press("Escape")` (`action_executor.py:664,690,694`); the class
defines `press_key`, not `key_press`, so that call raises `AttributeError`,
which the enclosing `except` turns into `modal_close_failed`
(`action_executor.py:719-721`). -/
def closeModal (page : Page) (closeStrategy : Option CloseStrategy) :
    RDict × List String :=
  match closeStrategy with
  | none =>
      match attrLookup "key_press" with
      | .ok _ => pressKey page "Escape"
      | .error m => ({ error := some "modal_close_failed", reason := some (m.take 100) }, [])
  | some cs =>
      let strategyType := cs.type.getD "button"
      if strategyType == "button" then
        if strTruthy cs.strategy && !cs.args.isEmpty then
          ((click page (orEmpty cs.strategy) cs.args).1, [])
        else
          match attrLookup "key_press" with
          | .ok _ => pressKey page "Escape"
          | .error m => ({ error := some "modal_close_failed", reason := some (m.take 100) }, [])
      else if strategyType == "esc" then
        match attrLookup "key_press" with
        | .ok _ => pressKey page "Escape"
        | .error m => ({ error := some "modal_close_failed", reason := some (m.take 100) }, [])
      else if strategyType == "outside" then
        ({ success := true }, [])
      else
        ({ error := some "unknown_close_strategy" }, [])

end Sosix.Exec

namespace Sosix.PA

/-!
## `page_analyzer.py` — modal detection and the search-hints modal gate

Two distinct modal checks live in the analyzer:

* `_check_modal_visible` (`page_analyzer.py:216-272`) — a boolean used by
  `_get_search_hints` (`page_analyzer.py:344`) to decide whether to emit
  modal-scoped hints and suppress the main-page sections.  It checks
  visibility only — no bounding-box height.
* `_detect_modals` (`page_analyzer.py:1205-1313`) — sets
  `analysis.modal_open`/`modal_text` and computes the close strategy.  It
  additionally requires a bounding-box height of at least 150 px.

Elements carry the raw `class` attribute string for the CSS fallback
selector and the buttons found inside them (for the close-strategy scan);
explicit `role` attributes coincide with the computed ARIA role here.
-/

/-- A button inside a candidate modal, as read by the close-strategy scan. -/
structure MBtn where
  text : String := ""
  ariaLabel : Option String := none
  deriving Repr, DecidableEq

/-- A candidate element of the analyzer's page model. -/
structure MElem where
  tag : String := "div"
  role : String := ""
  classAttr : String := ""
  visible : Bool := true
  height : Option Nat := none
  text : String := ""
  buttonsInside : List MBtn := []
  deriving Repr, DecidableEq

/-- The analyzer's page: elements in document order. -/
abbrev APage := List MElem

/-- Whitespace-separated class tokens of the `class` attribute. -/
def classTokens (e : MElem) : List String :=
  (pySplitOn e.classAttr " ").filter (fun t => t ≠ "")

/-- Matches the fallback CSS selector
`div[class*="modal"], div[class*="popup"], [role="dialog"], .fade.show`
(`page_analyzer.py:252,1264`). -/
def matchesModalSelector (e : MElem) : Bool :=
  (e.tag == "div" && containsSub e.classAttr "modal") ||
  (e.tag == "div" && containsSub e.classAttr "popup") ||
  e.role == "dialog" ||
  ((classTokens e).contains "fade" && (classTokens e).contains "show")

/-- Embeds `PageAnalyzer._check_modal_visible` (`page_analyzer.py:216-272`):
method 1 checks only the FIRST `role="dialog"` element's visibility; method
2 checks only the LAST fallback-selector match's visibility.  No height is
consulted. -/
def checkModalVisible (page : APage) : Bool :=
  let dialogs := page.filter (fun e => e.role == "dialog")
  if dialogs.length > 0 && ((dialogs.head?.map (fun e => e.visible)).getD false) then
    true
  else
    let found := page.filter matchesModalSelector
    found.length > 0 && ((found.getLast?.map (fun e => e.visible)).getD false)

/-- The close strategy recorded into `analysis.modal_close_element`. -/
inductive CloseElement where
  | textButton (text : String)
  | escKey
  deriving Repr, DecidableEq

/-- Close-button texts of strategy 1 (`page_analyzer.py:1344`). -/
def closeWords : List String := ["close", "x", "✕", "×"]

/-- Exact cancel/no texts of strategy 2 (`page_analyzer.py:1373-1379`). -/
def actionButtonTexts : List String :=
  ["Cancel", "cancel", "CANCEL", "No", "no", "NO",
   "Отмена", "отмена", "Закрыть", "закрыть", "Нет", "нет"]

/-- Is this button a close button per strategy 1 (`page_analyzer.py:1343-1346`)? -/
def isCloseButton (b : MBtn) : Bool :=
  closeWords.contains (pyLower (pyStrip b.text)) ||
  (match b.ariaLabel with
   | some al => al ≠ "" && (containsSub (pyLower al) "close" || containsSub (pyLower al) "закрыть")
   | none => false)

/-- Embeds `PageAnalyzer._find_modal_close_strategy`
(`page_analyzer.py:1315-1440`), scanning only the buttons inside the
detected modal: close/X button, then exact cancel-vocabulary button, then
the first button with non-empty text, then the Escape fallback. -/
def findModalCloseStrategy (modal : MElem) : CloseElement :=
  match modal.buttonsInside.find? isCloseButton with
  | some b =>
      .textButton (if pyStrip b.text ≠ "" then pyStrip b.text else (b.ariaLabel.getD ""))
  | none =>
    match modal.buttonsInside.find? (fun b => actionButtonTexts.contains (pyStrip b.text)) with
    | some b => .textButton (pyStrip b.text)
    | none =>
      match modal.buttonsInside.head? with
      | some b => if pyStrip b.text ≠ "" then .textButton (pyStrip b.text) else .escKey
      | none => .escKey

/-- The modal fields of a `PageAnalysis` set by `_detect_modals`. -/
structure ModalAnalysis where
  modal_open : Bool := false
  modal_text : Option String := none
  modal_close_element : Option CloseElement := none
  deriving Repr, DecidableEq

/-- Qualifies an element for `_detect_modals`: visible and with a bounding
box at least 150 px tall (`page_analyzer.py:1229-1236,1274-1284`). -/
def qualifiesAsModal (e : MElem) : Bool :=
  e.visible && ((e.height.map (fun h => decide (150 ≤ h))).getD false)

/-- Embeds `PageAnalyzer._detect_modals` (`page_analyzer.py:1205-1313`):
method 1 takes the first `[role="dialog"], [role="alertdialog"]` element
that is visible and ≥150 px tall; method 2 takes the LAST fallback-selector
match and accepts it only if visible and ≥150 px tall (a failing last match
falls through to "no modal", other matches are not tried); otherwise
`modal_open := false`. -/
def detectModals (page : APage) : ModalAnalysis :=
  let dialogs := page.filter (fun e => e.role == "dialog" || e.role == "alertdialog")
  match dialogs.find? qualifiesAsModal with
  | some d =>
      { modal_open := true, modal_text := some d.text
        modal_close_element := some (findModalCloseStrategy d) }
  | none =>
    let found := page.filter matchesModalSelector
    match found.getLast? with
    | some m =>
        if qualifiesAsModal m then
          { modal_open := true, modal_text := some m.text
            modal_close_element := some (findModalCloseStrategy m) }
        else { modal_open := false }
    | none => { modal_open := false }

/-- The hint-section groups `_get_search_hints` can emit, in source order. -/
inductive HintSection where
  | modalInputs
  | videoPlayer
  | pageInputs
  | pageButtons
  | pageLinks
  | aggregateCounts
  | listboxOptions
  | modalClickables
  deriving Repr, DecidableEq

/-- What the page offers each section (inputs/buttons/links present, a video
element present), so the section-emission logic can be stated. -/
structure PageOffer where
  hasVideo : Bool := false
  hasInputs : Bool := false
  hasButtons : Bool := false
  hasLinks : Bool := false
  hasAggregates : Bool := false
  hasListbox : Bool := false
  deriving Repr, DecidableEq

/-- Section-level embedding of `PageAnalyzer._get_search_hints`
(`page_analyzer.py:326-1050`): which hint sections are emitted.  The gate is
`modal_window_open = await self._check_modal_visible()`
(`page_analyzer.py:344`); the video, page-input, button, link, aggregate
and listbox sections are each guarded by `not modal_window_open`
(`page_analyzer.py:354,428,575,684,744-756,1039`), while the modal-scoped
input and clickable sections require it (`page_analyzer.py:375,957`).
Per-element hint strings are abstracted away; only section emission is
modelled. -/
def searchHintsSections (page : APage) (offer : PageOffer) : List HintSection :=
  let modalWindowOpen := checkModalVisible page
  (if modalWindowOpen then [HintSection.modalInputs] else []) ++
  (if !modalWindowOpen && offer.hasVideo then [HintSection.videoPlayer] else []) ++
  (if !modalWindowOpen && offer.hasInputs then [HintSection.pageInputs] else []) ++
  (if !modalWindowOpen && offer.hasButtons then [HintSection.pageButtons] else []) ++
  (if !modalWindowOpen && offer.hasLinks then [HintSection.pageLinks] else []) ++
  (if !modalWindowOpen && offer.hasAggregates then [HintSection.aggregateCounts] else []) ++
  (if !modalWindowOpen && offer.hasListbox then [HintSection.listboxOptions] else []) ++
  (if modalWindowOpen then [HintSection.modalClickables] else [])

end Sosix.PA

namespace Sosix.Agent

open Sosix.Exec (Args AVal RDict argStr)

/-!
## `browser_agent.py` — decision execution, run-state resets, loop breakers

`_execute_decision` (`browser_agent.py:1562-1897`) is embedded from the
point where `DecisionValidator.parse_decision` has succeeded (the claims
concern parsed decisions).  The Action Executor, the LLM, and the operator
are oracles; every executor/driver operation performed is appended to a
`BrowserOp` trace, so "never reaches the Action Executor" is `trace = []`.
-/

/-- A parsed decision dict (the dict side of a successful
`parse_decision`), restricted to the keys `_execute_decision` reads. -/
structure ParsedDecision where
  action : Option String := none
  strategy : Option String := none
  args : Option Args := none
  value : Option String := none
  reason : Option String := none
  deriving Repr, DecidableEq

/-- An entry of `self.failed_actions` (`browser_agent.py:866-877,906-914`). -/
structure ActionRecord where
  action : String := "unknown"
  strategy : String := "unknown"
  args : Args := []
  element : String := ""
  reason : String := "no reason"
  success : Option Bool := none
  deriving Repr, DecidableEq

/-- Renders Python `repr` of an args dict (`str(args)` in the signature
construction at `browser_agent.py:1608-1609`): insertion order, quoted
string values, `True`/`False` booleans. -/
def pyReprAVal : AVal → String
  | .s v => "'" ++ v ++ "'"
  | .b true => "True"
  | .b false => "False"

/-- Renders `str(args)` for a locator args dict. -/
def strArgs (a : Args) : String :=
  "\x7b" ++ String.intercalate ", "
    (a.map (fun p => "'" ++ p.1 ++ "': " ++ pyReprAVal p.2)) ++ "\x7d"

/-- Builds the `action:strategy:str(args)` signature used by the
repeated-action block (`browser_agent.py:1608-1609`). -/
def decisionSignature (action strategy : String) (args : Args) : String :=
  action ++ ":" ++ strategy ++ ":" ++ strArgs args

/-- Browser/executor operations performed during one `_execute_decision`. -/
inductive BrowserOp where
  | click (strategy : String) (args : Args) (allowMultiple : Bool)
  | fill (strategy : String) (args : Args) (text : String)
  | typeText (strategy : String) (args : Args) (text : String)
  | goto (url : String)
  | scroll (direction : String)
  | waitTimeout (ms : Int)
  | waitForUser (reason : String)
  | keyPress (key : String)
  deriving Repr, DecidableEq

/-- The dict `_execute_decision` returns; absent keys are `none`/`false`. -/
structure DecResult where
  error : Option String := none
  details : Option String := none
  success : Bool := false
  task_complete : Bool := false
  summary : Option String := none
  user_input : Option String := none
  needs_retry : Bool := false
  action : Option String := none
  strategy : Option String := none
  args : Option Args := none
  element_text : Option String := none
  deriving Repr, DecidableEq

/-- Outcome of the LLM disambiguation round-trip
(`browser_agent.py:1726-1751,1786-1808`): empty reply, a parsed JSON
object (with optional `strategy`/`args`), a parsed value that is not a
non-empty object, or an exception while calling/parsing. -/
inductive DisambigReply where
  | empty
  | obj (strategy : Option String) (args : Option Args)
  | invalid
  | raises
  deriving Repr, DecidableEq

/-- Oracles for everything `_execute_decision` calls out to: the Action
Executor methods, the page keyboard, the operator, and the LLM
disambiguation calls.  `pressKeyPage` returns the exception message when
`page.keyboard.press` raises. -/
structure ExecOracle where
  click : String → Args → Bool → RDict
  fill : String → Args → String → RDict
  typeText : String → Args → String → RDict
  goto : String → Bool
  scroll : String → Bool
  waitForTimeout : Int → Bool
  waitForUserAction : String → Bool
  pressKeyPage : String → Option String
  confirm : String → Bool
  askUser : String → String
  disambigClick : DisambigReply
  disambigFill : DisambigReply

/-- The agent fields `_execute_decision` reads. -/
structure DecisionCtx where
  pageStateUnchangedCount : Nat := 0
  failedActions : List ActionRecord := []
  isRisky : Bool := false
  deriving Repr

/-- Final result handling of `_execute_decision`
(`browser_agent.py:1883-1892`): a success dict, else an error dict whose
message prefers the result's `reason` key over its `error` key, else the
generic "action not performed" message (also taken when no dispatch branch
matched and `result` stayed `None`). -/
def finishResult (action : String) (r : Option RDict) (trace : List BrowserOp) :
    DecResult × List BrowserOp :=
  match r with
  | some res =>
      if res.success then ({ success := true }, trace)
      else
        match res.error with
        | some e => ({ error := some (res.reason.getD e) }, trace)
        | none => ({ error := some ("Действие " ++ action ++ " не выполнено") }, trace)
  | none => ({ error := some ("Действие " ++ action ++ " не выполнено") }, trace)

/-- The risky-action keywords of the security gate (`browser_agent.py:1648`). -/
def riskKeywords : List String :=
  ["оплат", "платёж", "pay", "confirm", "удали", "delete", "отправить"]

/-- Dispatch table of `_execute_decision` (`browser_agent.py:1659-1892`),
entered after the repeated-action block and the text-marker corrections;
`strategy`/`args` are the corrected values. -/
def executeDecisionDispatch (o : ExecOracle) (action strategy : String)
    (args : Args) (value reason : String) : DecResult × List BrowserOp :=
  if action == "click" then
    let r0 := o.click strategy args false
    let t0 := [BrowserOp.click strategy args false]
    if r0.error == some "strict_mode_violation" || r0.error == some "multiple_matches" then
      match o.disambigClick with
      | .empty => ({ error := some "empty_disambig_response" }, t0)
      | .obj st ar =>
          let s1 := st.getD strategy
          let a1 := ar.getD args
          finishResult action (some (o.click s1 a1 true)) (t0 ++ [BrowserOp.click s1 a1 true])
      | .invalid => ({ error := some "disambig_response_invalid" }, t0)
      | .raises => ({ error := some "strict_mode_disambiguation_failed" }, t0)
    else finishResult action (some r0) t0
  else if action == "fill" then
    let r0 := o.fill strategy args value
    let t0 := [BrowserOp.fill strategy args value]
    if r0.error == some "strict_mode_violation" then
      match o.disambigFill with
      | .empty => ({ error := some "empty_disambig_response" }, t0)
      | .obj st ar =>
          let s1 := st.getD strategy
          let a1 := ar.getD args
          finishResult action (some (o.fill s1 a1 value)) (t0 ++ [BrowserOp.fill s1 a1 value])
      | .invalid => ({ error := some "fill_disambig_failed" }, t0)
      | .raises => ({ error := some "field_disambiguation_failed" }, t0)
    else finishResult action (some r0) t0
  else if action == "type" then
    finishResult action (some (o.typeText strategy args value))
      [BrowserOp.typeText strategy args value]
  else if action == "submit" then
    finishResult action (some (o.click strategy args false))
      [BrowserOp.click strategy args false]
  else if action == "goto" then
    finishResult action (some { success := o.goto value }) [BrowserOp.goto value]
  else if action == "scroll" then
    let direction := pyLower (if value == "" then "down" else value)
    finishResult action (some { success := o.scroll direction }) [BrowserOp.scroll direction]
  else if action == "wait" then
    match DV.pyInt (if value == "" then "1000" else value) with
    | some waitMs =>
        let _ := o.waitForTimeout waitMs
        finishResult action (some { success := true }) [BrowserOp.waitTimeout waitMs]
    | none =>
        ({ error := some ("Ошибка выполнения действия: " ++
           ("invalid literal for int() with base 10: '" ++ value ++ "'").take 50) }, [])
  else if action == "ask_user" then
    let userPrompt := if reason ≠ "" then reason else if value ≠ "" then value else "Введите данные:"
    ({ user_input := some (o.askUser userPrompt), needs_retry := true }, [])
  else if action == "wait_for_user_action" then
    let waitReason := if reason ≠ "" then reason else "Требуется действие пользователя"
    let _ := o.waitForUserAction waitReason
    ({ success := true }, [BrowserOp.waitForUser waitReason])
  else if action == "press_key" then
    let keyName := if value == "" then "Enter" else value
    match o.pressKeyPage keyName with
    | none => finishResult action (some { success := true, key := some keyName })
        [BrowserOp.keyPress keyName]
    | some e => finishResult action (some { error := some e }) [BrowserOp.keyPress keyName]
  else if action == "confirm_complete" then
    let summary := if value == "" then "Задача завершена успешно" else value
    ({ task_complete := true, summary := some summary }, [])
  else
    finishResult action none []

/-- Normalises the decision's `action`:
`(parsed.get("action") or "").lower().strip()` (`browser_agent.py:1578`). -/
def normAction (d : ParsedDecision) : String :=
  pyStrip (pyLower (orEmpty d.action))

/-- Normalises the decision's `strategy` (`browser_agent.py:1579`). -/
def normStrategy (d : ParsedDecision) : String :=
  pyStrip (pyLower (orEmpty d.strategy))

/-- Computes the decision's `args` after the auto-build step
(`browser_agent.py:1580,1584-1589`): empty args are synthesised as
`{strategy: value}` when both `strategy` and `value` are non-empty. -/
def normArgs (d : ParsedDecision) : Args :=
  let args0 := d.args.getD []
  if args0.isEmpty && normStrategy d ≠ "" && (d.value.getD "") ≠ "" then
    [(normStrategy d, AVal.s (d.value.getD ""))]
  else args0

/-- Embeds `_execute_decision` from the successful-parse point
(`browser_agent.py:1578-1897`): field normalisation, the auto-build of
empty `args` from `strategy`+`value` (`browser_agent.py:1584-1589`), the
repeated-action strict block — which requires
`page_state_unchanged_count > 0` AND a non-empty attempted-action list
(`browser_agent.py:1601-1624`) — the two `text`-marker corrections
(`browser_agent.py:1626-1644`), the security gate
(`browser_agent.py:1646-1657`), and the dispatch table. -/
def executeDecisionParsed (ctx : DecisionCtx) (o : ExecOracle)
    (d : ParsedDecision) : DecResult × List BrowserOp :=
  let action := normAction d
  let strategy0 := normStrategy d
  let value := d.value.getD ""
  let reason := d.reason.getD ""
  let args1 := normArgs d
  let blocked :=
    ctx.pageStateUnchangedCount > 0 &&
    (match ctx.failedActions.getLast? with
     | some lastFailed =>
         decisionSignature action strategy0 args1 ==
           decisionSignature lastFailed.action lastFailed.strategy lastFailed.args
     | none => false)
  if blocked then
    ({ error := some "BLOCKED_REPEATED_ACTION"
       details := some ("Попытка повторить неудачное действие: " ++
         (match ctx.failedActions.getLast? with
          | some lf => lf.action
          | none => ""))
       action := some action
       strategy := some strategy0
       args := some args1
       element_text := some (strArgs args1) }, [])
  else
    let p1 :=
      if strategy0 == "text" && pyStartsWith (argStr args1 "text") "[aria-label]" then
        ("aria-label",
         [("aria-label", AVal.s (pyStrip (pyReplace (argStr args1 "text") "[aria-label]" "")))])
      else (strategy0, args1)
    let p2 :=
      if p1.1 == "text" && pyStartsWith (argStr p1.2 "text") "[id]" then
        ("id", [("id", AVal.s (pyStrip (pyReplace (argStr p1.2 "text") "[id]" "")))])
      else p1
    let strategy := p2.1
    let args := p2.2
    if ctx.isRisky && ["submit", "click", "confirm_complete"].contains action then
      let isRiskyAction := riskKeywords.any (fun kw =>
        containsSub (pyLower strategy) kw || containsSub (pyLower reason) kw)
      if isRiskyAction && !(o.confirm "Вы уверены, что хотите выполнить это действие?") then
        ({ error := some "Действие отменено пользователем (безопасность)" }, [])
      else executeDecisionDispatch o action strategy args value reason
    else executeDecisionDispatch o action strategy args value reason

end Sosix.Agent

namespace Sosix.Agent

/-!
## Agent run state across tasks, and the loop's breaker logic
-/

/-- The agent's per-run mutable state (`browser_agent.py:43-59`). -/
structure AgentState where
  iterationCount : Nat := 0
  previousPageState : Option String := none
  pageStateUnchangedCount : Nat := 0
  errorHistory : List String := []
  lastError : Option String := none
  failedActions : List ActionRecord := []
  deriving Repr, DecidableEq

/-- The run-state assignments performed between the start of an
`execute_task` call and the first loop iteration: `self.iteration_count = 0`
(`browser_agent.py:304`) and `_execute_iteratively`'s
`self.error_history = []; self.last_error = None`
(`browser_agent.py:746-748`).  No other run-state field is assigned on this
path: `previous_page_state`, `page_state_unchanged_count` and
`failed_actions` keep whatever the previous task left in them. -/
def executeTaskStateReset (s : AgentState) : AgentState :=
  { s with iterationCount := 0, errorHistory := [], lastError := none }

/-- Threshold `self.max_unchanged_threshold` (`browser_agent.py:50`). -/
def maxUnchangedThreshold : Nat := 2

/-- Threshold `self.consecutive_error_threshold` (`browser_agent.py:55`). -/
def consecutiveErrorThreshold : Nat := 3

/-- Bound `self.max_error_history` (`browser_agent.py:56`). -/
def maxErrorHistory : Nat := 5

/-- Counts how many of the most recent error-history entries, scanning
backward, equal the current error (`browser_agent.py:933-940`). -/
def countBackSame (hist : List String) (err : String) : Nat :=
  (hist.reverse.takeWhile (fun e => e == err)).length

/-- The loop state a single iteration reads and writes. -/
structure IterState where
  previousPageState : Option String := none
  pageStateUnchangedCount : Nat := 0
  errorHistory : List String := []
  deriving Repr, DecidableEq

/-- Counter update of `_has_page_changed` (`browser_agent.py:715-739`): the
first comparison leaves the counter untouched; a changed fingerprint resets
it; an unchanged fingerprint increments it. -/
def unchangedCountUpdate (prev : Option String) (cur : String) (cnt : Nat) : Nat :=
  match prev with
  | none => cnt
  | some p => if cur ≠ p then 0 else cnt + 1

/-- Verdict of one iteration's post-execution handling: circuit breaker A
(`browser_agent.py:917-925`), circuit breaker B
(`browser_agent.py:927-951`), or continue. -/
inductive StepVerdict where
  | stuckPageUnchanged (s : IterState)
  | stuckRepeatedError (err : String) (s : IterState)
  | next (s : IterState)
  deriving Repr, DecidableEq

/-- One iteration of `_execute_iteratively` restricted to the state the
breakers read (`browser_agent.py:751-971`): fingerprint comparison, then —
for a failed decision — breaker A on the unchanged-page streak, the bounded
error-history push, and breaker B on the backward run of identical errors;
a successful decision clears the error history and nothing else. -/
def stepIteration (s : IterState) (fingerprint : String)
    (error : Option String) : StepVerdict :=
  let cnt := unchangedCountUpdate s.previousPageState fingerprint s.pageStateUnchangedCount
  let s1 : IterState :=
    { s with pageStateUnchangedCount := cnt, previousPageState := some fingerprint }
  match error with
  | some errorMsg =>
      if s1.pageStateUnchangedCount ≥ maxUnchangedThreshold then
        .stuckPageUnchanged s1
      else
        let hist0 := s1.errorHistory ++ [errorMsg]
        let hist := if hist0.length > maxErrorHistory then hist0.tail else hist0
        if countBackSame hist errorMsg ≥ consecutiveErrorThreshold then
          .stuckRepeatedError errorMsg { s1 with errorHistory := hist }
        else .next { s1 with errorHistory := hist }
  | none => .next { s1 with errorHistory := [] }

/-- Runs consecutive iterations, each supplying its page fingerprint and
the decision outcome (`none` = success, `some e` = error message), stopping
at the first breaker verdict. -/
def runIterations (s : IterState) : List (String × Option String) → StepVerdict
  | [] => .next s
  | (fp, err) :: rest =>
      match stepIteration s fp err with
      | .next s2 => runIterations s2 rest
      | v => v

end Sosix.Agent

namespace Sosix

open Sosix.Dom Sosix.Exec Sosix.PA Sosix.Agent

/-!
## Fixtures

Concrete oracles and page fixtures used to evaluate the embeddings at the
claims' inputs.
-/

/-- An executor oracle whose actions succeed, whose `scroll` is the embedded
`ActionExecutor.scroll` result, and whose page key presses do not raise. -/
def probeOracle : ExecOracle :=
  { click := fun _ _ _ => { success := true }
    fill := fun _ _ _ => { success := true }
    typeText := fun _ _ _ => { success := true }
    goto := fun _ => true
    scroll := fun d => (Exec.scroll d).2
    waitForTimeout := fun _ => true
    waitForUserAction := fun _ => true
    pressKeyPage := fun _ => none
    confirm := fun _ => true
    askUser := fun _ => "answer"
    disambigClick := .raises
    disambigFill := .raises }

/-- First of three visible elements whose text contains "Download". -/
def c6Elem1 : PElem := { text := "Download now", role := "button" }

/-- Second matching element of the strict-mode fixture. -/
def c6Elem2 : PElem := { text := "Download later", role := "button" }

/-- Third matching element of the strict-mode fixture. -/
def c6Elem3 : PElem := { text := "Download all", role := "button" }

/-- A page with exactly 3 elements matching the `text` locator "Download". -/
def c6Page : Dom.Page := [c6Elem1, c6Elem2, c6Elem3]

/-- A visible `modal`-classed div with a bounding box below 150 px. -/
def c9Elem (h : Nat) : MElem :=
  { tag := "div", classAttr := "modal fade", visible := true,
    height := some h, text := "promo banner" }

/-- A page whose only modal-selector match is the short `modal`-classed div. -/
def c9Page (h : Nat) : APage := [c9Elem h]

/-- A page offer where the main page has inputs, buttons and links. -/
def c9Offer : PageOffer := { hasInputs := true, hasButtons := true, hasLinks := true }

/-- The attempted-action record left by a failed `click` decision. -/
def c2Record : ActionRecord :=
  { action := "click", strategy := "text",
    args := [("text", AVal.s "Скачать")], element := "", reason := "element_not_found",
    success := some false }

/-- A decision identical in `(action, strategy, args)` to `c2Record`. -/
def c2Decision : ParsedDecision :=
  { action := some "click", strategy := some "text",
    args := some [("text", AVal.s "Скачать")] }

end Sosix

namespace Sosix

open Sosix.Dom Sosix.Exec Sosix.PA Sosix.Agent

/-!
## Claim theorems
-/

/-- C3: the claim states every element of the agent run state — iteration
counter, previous page fingerprint, unchanged-page counter, error history
and attempted-action list — is reset at the start of `execute_task`.  The
code resets only the iteration counter and the error tracking
(`browser_agent.py:304,746-748`); evaluated at a state left by a previous
task, the fingerprint, the unchanged-page counter and the attempted-action
list survive into the next task, contradicting the claim (and the comment
"Memory of failed actions during THIS task execution" at
`browser_agent.py:59`). -/
theorem C3_state_not_reset :
    Agent.executeTaskStateReset
      { iterationCount := 17
        previousPageState := some "d41d8cd98f00b204e9800998ecf8427e"
        pageStateUnchangedCount := 1
        errorHistory := ["element_not_found"]
        lastError := some "element_not_found"
        failedActions := [c2Record] } =
      { iterationCount := 0
        previousPageState := some "d41d8cd98f00b204e9800998ecf8427e"
        pageStateUnchangedCount := 1
        errorHistory := []
        lastError := none
        failedActions := [c2Record] } ∧
    (Agent.executeTaskStateReset
      { iterationCount := 17
        previousPageState := some "d41d8cd98f00b204e9800998ecf8427e"
        pageStateUnchangedCount := 1
        errorHistory := ["element_not_found"]
        lastError := some "element_not_found"
        failedActions := [c2Record] }).failedActions ≠ [] := by
  constructor
  · rfl
  · intro h
    simp [Agent.executeTaskStateReset] at h

set_option maxRecDepth 4000 in
/-- C5: `close_modal` with no close strategy (and likewise with an `esc`
strategy, or a `button` strategy without a sub-strategy) does not press
Escape: every Escape path calls `self.key_press("Escape")` while the class
defines `press_key`, so an `AttributeError` is raised and swallowed into a
`modal_close_failed` error, with no key pressed — where a direct
`press_key("Escape")` would have returned `{"success": True}`. -/
theorem C5_close_modal_never_presses_escape :
    Exec.closeModal [] none =
      ({ error := some "modal_close_failed",
         reason := some "'ActionExecutor' object has no attribute 'key_press'" }, []) ∧
    Exec.closeModal [] (some { type := some "esc" }) =
      ({ error := some "modal_close_failed",
         reason := some "'ActionExecutor' object has no attribute 'key_press'" }, []) ∧
    Exec.closeModal [] (some { type := some "button" }) =
      ({ error := some "modal_close_failed",
         reason := some "'ActionExecutor' object has no attribute 'key_press'" }, []) ∧
    Exec.pressKey [] "Escape" = ({ success := true }, ["Escape"]) ∧
    ("key_press" ∈ Exec.actionExecutorMethods) = False ∧
    ("press_key" ∈ Exec.actionExecutorMethods) = True := by
  refine ⟨rfl, rfl, rfl, rfl, ?_, ?_⟩ <;> simp [Exec.actionExecutorMethods]

end Sosix

namespace Sosix

/-- C4 counterexample: a history-backed call that sends user message "hi"
and receives assistant reply "ok" puts the user message in the request
payload only; the stored history gains a single assistant message, not the
claimed user+assistant pair. -/
theorem C4_counterexample :
    Api.buildPayloadMessages [⟨"system", "s"⟩] true "hi" =
      [⟨"system", "s"⟩, ⟨"user", "hi"⟩] ∧
    Api.callWithRetry true [⟨"system", "s"⟩] 0 [] [.ok "ok"] =
      .ok "ok" [⟨"system", "s"⟩, ⟨"assistant", "ok"⟩] [] 0 ∧
    ([⟨"system", "s"⟩, ⟨"assistant", "ok"⟩] : List Api.Message) ≠
      [⟨"system", "s"⟩, ⟨"user", "hi"⟩, ⟨"assistant", "ok"⟩] := by
  refine ⟨rfl, rfl, ?_⟩
  intro h
  simp at h

/-- C4 amended: a successful history-backed call appends exactly one
message — the assistant's non-empty reply — to the history (the user
message is carried only in the request payload built by `_build_payload`),
and a one-shot (`use_history=false`) call leaves the history unchanged. -/
theorem C4_history_growth (h : List Api.Message) (t : String) (ht : t ≠ "") :
    Api.callWithRetry true h 0 [] [.ok t] =
      .ok t (h ++ [⟨"assistant", t⟩]) [] 0 ∧
    Api.callWithRetry false h 0 [] [.ok t] = .ok t h [] 0 ∧
    Api.buildPayloadMessages h true "m" = h ++ [⟨"user", "m"⟩] := by
  refine ⟨?_, ?_, rfl⟩ <;> simp [Api.callWithRetry, Api.maxRetries, ht]

/-- C4 witness: instantiates the amended history-growth theorem at a
concrete history and reply. -/
theorem C4_history_growth_witness :
    Api.callWithRetry true [⟨"system", "s"⟩] 0 [] [.ok "ok"] =
      .ok "ok" [⟨"system", "s"⟩, ⟨"assistant", "ok"⟩] [] 0 ∧
    Api.callWithRetry false [⟨"system", "s"⟩] 0 [] [.ok "ok"] =
      .ok "ok" [⟨"system", "s"⟩] [] 0 ∧
    Api.buildPayloadMessages [⟨"system", "s"⟩] true "m" =
      [⟨"system", "s"⟩, ⟨"user", "m"⟩] :=
  C4_history_growth [⟨"system", "s"⟩] "ok" (by decide)

/-- C7: two 429 responses followed by a 200 complete successfully with two
10-second sleeps and the `attempt` counter still at 0 (no connection-retry
slot consumed); three consecutive connection errors exhaust the 3-attempt
budget with the doubling back-off (1 s, then 2 s) between attempts and then
propagate the error, regardless of any further transport behaviour. -/
theorem C7_retry_and_429 :
    (∀ (uh : Bool) (h : List Api.Message) (t : String),
      Api.callWithRetry uh h 0 [] [.status 429, .status 429, .ok t] =
        .ok t (if uh ∧ t ≠ "" then h ++ [⟨"assistant", t⟩] else h) [10, 10] 0) ∧
    (∀ (uh : Bool) (h : List Api.Message) (n1 n2 n3 : String)
        (rest : List Api.HttpEvent),
      Api.callWithRetry uh h 0 []
          ([.connError n1, .connError n2, .connError n3] ++ rest) =
        .raised n3 h
          [Api.retryDelayBase * 2 ^ 0, Api.retryDelayBase * 2 ^ 1]) := by
  constructor
  · intro uh h t
    by_cases huh : uh ∧ t ≠ "" <;>
      simp [Api.callWithRetry, Api.maxRetries, huh]
  · intro uh h n1 n2 n3 rest
    simp [Api.callWithRetry, Api.maxRetries, Api.retryDelayBase]

end Sosix

namespace Sosix

/-- C8: starting from a fresh loop state, a decision failing with the same
error message on 3 consecutive iterations (with the page fingerprint
changing each time, so circuit breaker A stays silent) trips circuit
breaker B and terminates as stuck; the same error only twice, interleaved
with a different error, leaves the loop running; and a successful decision
clears the error history while the unchanged-page streak is governed solely
by the fingerprint comparison. -/
theorem C8_circuit_breaker_b (E D f1 f2 f3 : String)
    (hED : E ≠ D) (h21 : f2 ≠ f1) (h32 : f3 ≠ f2) :
    Agent.runIterations {} [(f1, some E), (f2, some E), (f3, some E)] =
      .stuckRepeatedError E
        { previousPageState := some f3, pageStateUnchangedCount := 0
          errorHistory := [E, E, E] } ∧
    Agent.runIterations {} [(f1, some E), (f2, some D), (f3, some E)] =
      .next
        { previousPageState := some f3, pageStateUnchangedCount := 0
          errorHistory := [E, D, E] } ∧
    (∀ (s : Agent.IterState) (fp : String),
      Agent.stepIteration s fp none =
        .next
          { previousPageState := some fp
            pageStateUnchangedCount :=
              Agent.unchangedCountUpdate s.previousPageState fp
                s.pageStateUnchangedCount
            errorHistory := [] }) := by
  refine ⟨?_, ?_, ?_⟩
  · simp [Agent.runIterations, Agent.stepIteration, Agent.unchangedCountUpdate,
      Agent.countBackSame, Agent.maxUnchangedThreshold, Agent.maxErrorHistory,
      Agent.consecutiveErrorThreshold, h21, h32]
  · simp [Agent.runIterations, Agent.stepIteration, Agent.unchangedCountUpdate,
      Agent.countBackSame, Agent.maxUnchangedThreshold, Agent.maxErrorHistory,
      Agent.consecutiveErrorThreshold, h21, h32, hED, Ne.symm hED]
  · intro s fp
    simp [Agent.stepIteration]

/-- C8 witness: instantiates the circuit-breaker-B theorem at concrete
error messages and fingerprints. -/
theorem C8_circuit_breaker_b_witness :
    Agent.runIterations {} [("f1", some "e1"), ("f2", some "e1"), ("f3", some "e1")] =
      .stuckRepeatedError "e1"
        { previousPageState := some "f3", pageStateUnchangedCount := 0
          errorHistory := ["e1", "e1", "e1"] } ∧
    Agent.runIterations {} [("f1", some "e1"), ("f2", some "e2"), ("f3", some "e1")] =
      .next
        { previousPageState := some "f3", pageStateUnchangedCount := 0
          errorHistory := ["e1", "e2", "e1"] } ∧
    Agent.stepIteration
        { previousPageState := some "f4", pageStateUnchangedCount := 1
          errorHistory := ["e1"] } "f4" none =
      .next
        { previousPageState := some "f4"
          pageStateUnchangedCount :=
            Agent.unchangedCountUpdate (some "f4") "f4" 1
          errorHistory := [] } :=
  ⟨(C8_circuit_breaker_b "e1" "e2" "f1" "f2" "f3"
      (by decide) (by decide) (by decide)).1,
   (C8_circuit_breaker_b "e1" "e2" "f1" "f2" "f3"
      (by decide) (by decide) (by decide)).2.1,
   (C8_circuit_breaker_b "e1" "e2" "f1" "f2" "f3"
      (by decide) (by decide) (by decide)).2.2
     { previousPageState := some "f4", pageStateUnchangedCount := 1
       errorHistory := ["e1"] } "f4"⟩

/-- C9 counterexample: a visible `modal`-classed div 100 px tall is skipped
by `_detect_modals` (no `modal_open`, no close strategy) — but
`_get_search_hints` gates on `_check_modal_visible`, which ignores height,
so the main-page button and link hint sections ARE suppressed,
contradicting "not treated as a modal anywhere in page analysis". -/
theorem C9_counterexample :
    PA.detectModals (c9Page 100) =
      { modal_open := false, modal_text := none, modal_close_element := none } ∧
    PA.checkModalVisible (c9Page 100) = true ∧
    PA.searchHintsSections (c9Page 100) c9Offer =
      [.modalInputs, .modalClickables] ∧
    PA.HintSection.pageButtons ∉ PA.searchHintsSections (c9Page 100) c9Offer ∧
    PA.HintSection.pageLinks ∉ PA.searchHintsSections (c9Page 100) c9Offer := by
  refine ⟨rfl, rfl, rfl, ?_, ?_⟩ <;> decide

/-- C9 amended: for any visible `modal`-classed div shorter than 150 px (as
the page's only modal-selector match), `_detect_modals` leaves `modal_open`
false and computes no close strategy, but the search-hints builder — whose
gate `_check_modal_visible` has no height threshold — does treat it as an
open modal and suppresses the main-page button/link hint sections. -/
theorem C9_short_modal_div (h : Nat) (hlt : h < 150) :
    PA.detectModals (c9Page h) =
      { modal_open := false, modal_text := none, modal_close_element := none } ∧
    PA.checkModalVisible (c9Page h) = true ∧
    PA.HintSection.pageButtons ∉ PA.searchHintsSections (c9Page h) c9Offer ∧
    PA.HintSection.pageLinks ∉ PA.searchHintsSections (c9Page h) c9Offer := by
  have hq : PA.qualifiesAsModal (c9Elem h) = false := by
    simp [PA.qualifiesAsModal, c9Elem]
    omega
  have hdet : PA.detectModals (c9Page h) =
      (if PA.qualifiesAsModal (c9Elem h) then
        { modal_open := true, modal_text := some (c9Elem h).text
          modal_close_element := some (PA.findModalCloseStrategy (c9Elem h)) }
      else { modal_open := false }) := rfl
  have hvis : PA.checkModalVisible (c9Page h) = true := rfl
  have hsec : PA.searchHintsSections (c9Page h) c9Offer =
      [PA.HintSection.modalInputs, PA.HintSection.modalClickables] := rfl
  refine ⟨?_, hvis, ?_, ?_⟩
  · rw [hdet, hq]
    rfl
  · rw [hsec]
    decide
  · rw [hsec]
    decide

/-- C9 witness: instantiates the short-modal theorem at height 100. -/
theorem C9_short_modal_div_witness :
    PA.detectModals (c9Page 100) =
      { modal_open := false, modal_text := none, modal_close_element := none } ∧
    PA.checkModalVisible (c9Page 100) = true ∧
    PA.HintSection.pageButtons ∉ PA.searchHintsSections (c9Page 100) c9Offer ∧
    PA.HintSection.pageLinks ∉ PA.searchHintsSections (c9Page 100) c9Offer :=
  C9_short_modal_div 100 (by decide)

end Sosix

namespace Sosix

/-- C1 counterexample: `_execute_decision` never invokes
`validate_full_decision`.  For the parsed decision `{"action": "hover"}`
the execution falls through the dispatch table and reports the generic
"Действие hover не выполнено" — not the validator's UnknownAction failure
"Неизвестное действие: 'hover'", which `validate_full_decision` itself
would produce for that decision. -/
theorem C1_counterexample :
    (Agent.executeDecisionParsed {} probeOracle { action := some "hover" }).1.error =
      some "Действие hover не выполнено" ∧
    DV.validateFullDecision
        { action := some "hover", strategy := none, args := none,
          value := none, target := none } =
      (false, "Неизвестное действие: 'hover'") ∧
    (some "Действие hover не выполнено" : Option String) ≠
      some "Неизвестное действие: 'hover'" := by
  refine ⟨rfl, rfl, ?_⟩
  decide

/-- C1 amended: a parsed decision whose normalised action is outside the
eleven valid actions is never dispatched to any browser operation (the
trace is empty) and `_execute_decision` reports the generic dispatch
fall-through error "Действие … не выполнено"; `validate_full_decision`,
which the execution path does not call, would classify the same decision
as UnknownAction ("Неизвестное действие"). -/
theorem C1_unknown_action_fallthrough (ctx : Agent.DecisionCtx)
    (o : Agent.ExecOracle) (d : Agent.ParsedDecision)
    (hcnt : ctx.pageStateUnchangedCount = 0)
    (ha : Agent.normAction d ∉ DV.validActions) :
    Agent.executeDecisionParsed ctx o d =
      ({ error := some ("Действие " ++ Agent.normAction d ++ " не выполнено") }, []) ∧
    DV.validateFullDecision
        { action := d.action, strategy := d.strategy, args := none,
          value := none, target := none } =
      (false, "Неизвестное действие: '" ++ Agent.normAction d ++ "'") := by
  have hb : DV.validActions.contains (Agent.normAction d) = false := by
    cases hx : DV.validActions.contains (Agent.normAction d)
    · rfl
    · exact absurd (List.mem_of_elem_eq_true hx) ha
  simp only [DV.validActions, List.mem_cons, List.mem_singleton, not_or] at ha
  obtain ⟨h1, h2, h3, h4, h5, h6, h7, h8, h9, h10, h11⟩ := ha
  constructor
  · unfold Agent.executeDecisionParsed Agent.executeDecisionDispatch
    simp [hcnt, h1, h2, h3, h4, h5, h6, h7, h8, h9, h10, h11, Agent.finishResult]
  · unfold DV.validateFullDecision
    simp [Agent.normAction] at hb
    simp [hb, Agent.normAction]

/-- C1 witness: instantiates the fall-through theorem at the concrete
decision `{"action": "hover"}` with a fresh context. -/
theorem C1_unknown_action_fallthrough_witness :
    Agent.executeDecisionParsed {} probeOracle { action := some "hover" } =
      ({ error := some ("Действие " ++
          Agent.normAction { action := some "hover" } ++ " не выполнено") }, []) ∧
    DV.validateFullDecision
        { action := some "hover", strategy := none, args := none,
          value := none, target := none } =
      (false, "Неизвестное действие: '" ++
        Agent.normAction { action := some "hover" } ++ "'") :=
  C1_unknown_action_fallthrough {} probeOracle { action := some "hover" }
    rfl (by decide)

/-- C2 counterexample: immediately after a failed `(action, strategy,
args)` triple — `c2Record` is the attempted-action list's last entry — an
identical decision is NOT blocked when the page fingerprint changed
(`page_state_unchanged_count = 0`): the Action Executor is invoked (the
trace holds the click) and no BlockedRepeatedAction error is reported. -/
theorem C2_counterexample :
    Agent.executeDecisionParsed
      { pageStateUnchangedCount := 0, failedActions := [c2Record] }
      probeOracle c2Decision =
      ({ success := true },
       [Agent.BrowserOp.click "text" [("text", Exec.AVal.s "Скачать")] false]) ∧
    (Agent.executeDecisionParsed
      { pageStateUnchangedCount := 0, failedActions := [c2Record] }
      probeOracle c2Decision).2 ≠ [] ∧
    (Agent.executeDecisionParsed
      { pageStateUnchangedCount := 0, failedActions := [c2Record] }
      probeOracle c2Decision).1.error ≠ some "BLOCKED_REPEATED_ACTION" := by
  refine ⟨rfl, ?_, ?_⟩
  · intro h
    rw [show (Agent.executeDecisionParsed
        { pageStateUnchangedCount := 0, failedActions := [c2Record] }
        probeOracle c2Decision).2 =
      [Agent.BrowserOp.click "text" [("text", Exec.AVal.s "Скачать")] false] from rfl] at h
    exact List.noConfusion h
  · intro h
    rw [show (Agent.executeDecisionParsed
        { pageStateUnchangedCount := 0, failedActions := [c2Record] }
        probeOracle c2Decision).1.error = none from rfl] at h
    exact Option.noConfusion h

/-- C2 amended: a decision repeating the last recorded action's
`(action, strategy, args)` signature is rejected pre-execution with
BlockedRepeatedAction — with an empty browser-operation trace, so the
Action Executor is never reached — only when the unchanged-page counter is
positive (the fingerprint did not change after the previous action) and the
attempted-action list is non-empty. -/
theorem C2_blocked_when_page_unchanged (ctx : Agent.DecisionCtx)
    (o : Agent.ExecOracle) (d : Agent.ParsedDecision) (lf : Agent.ActionRecord)
    (hcnt : 0 < ctx.pageStateUnchangedCount)
    (hlast : ctx.failedActions.getLast? = some lf)
    (hsig : Agent.decisionSignature (Agent.normAction d) (Agent.normStrategy d)
        (Agent.normArgs d) =
      Agent.decisionSignature lf.action lf.strategy lf.args) :
    Agent.executeDecisionParsed ctx o d =
      ({ error := some "BLOCKED_REPEATED_ACTION"
         details := some ("Попытка повторить неудачное действие: " ++ lf.action)
         action := some (Agent.normAction d)
         strategy := some (Agent.normStrategy d)
         args := some (Agent.normArgs d)
         element_text := some (Agent.strArgs (Agent.normArgs d)) }, []) := by
  unfold Agent.executeDecisionParsed
  simp [hlast, hsig, hcnt]

set_option maxRecDepth 8000 in
/-- C2 witness: instantiates the blocked-repeat theorem right after the
failed triple recorded in `c2Record`, with the page fingerprint unchanged. -/
theorem C2_blocked_when_page_unchanged_witness :
    Agent.executeDecisionParsed
      { pageStateUnchangedCount := 1, failedActions := [c2Record] }
      probeOracle c2Decision =
      ({ error := some "BLOCKED_REPEATED_ACTION"
         details := some ("Попытка повторить неудачное действие: " ++ c2Record.action)
         action := some (Agent.normAction c2Decision)
         strategy := some (Agent.normStrategy c2Decision)
         args := some (Agent.normArgs c2Decision)
         element_text := some (Agent.strArgs (Agent.normArgs c2Decision)) }, []) :=
  C2_blocked_when_page_unchanged
    { pageStateUnchangedCount := 1, failedActions := [c2Record] }
    probeOracle c2Decision c2Record (by decide) rfl rfl

end Sosix

namespace Sosix

/-- C6 counterexample: on a page with exactly 3 elements matching the
`text` locator "Download", a click with `allow_multiple=false` does not
return a MultipleMatches result with count 3 — the `text` strategy builds a
`.first` locator, so the click succeeds against the first match. -/
theorem C6_counterexample :
    (c6Page.filter (fun e => Dom.containsI e.text "Download")).length = 3 ∧
    Exec.click c6Page "text" [("text", Exec.AVal.s "Download")] false =
      ({ success := true }, some c6Elem1) ∧
    (Exec.click c6Page "text" [("text", Exec.AVal.s "Download")] false).1.error ≠
      some "multiple_matches" := by
  refine ⟨rfl, rfl, ?_⟩
  intro h
  rw [show (Exec.click c6Page "text" [("text", Exec.AVal.s "Download")] false).1.error =
      none from rfl] at h
  exact Option.noConfusion h

/-- C6 amended: a `text`-strategy locator resolves to at most one element
(`_build_locator_from_strategy` appends `.first` on every `text` path), so
on the 3-match fixture the click succeeds against the first match for
either value of `allow_multiple`; a MultipleMatches result carrying the
count and at most 5 variant descriptions arises only for non-collapsing
strategies, e.g. a `role` locator over the same 3 elements. -/
theorem C6_text_locator_collapses :
    (∀ (page : Dom.Page) (args : Exec.Args),
      (Exec.buildLocatorFromStrategy page "text" args).length ≤ 1) ∧
    Exec.click c6Page "text" [("text", Exec.AVal.s "Download")] false =
      ({ success := true }, some c6Elem1) ∧
    Exec.click c6Page "text" [("text", Exec.AVal.s "Download")] true =
      ({ success := true }, some c6Elem1) ∧
    Exec.click c6Page "role" [("role", Exec.AVal.s "button")] false =
      ({ error := some "multiple_matches"
         count := some 3
         suggestion := some "Найдено 3 совпадений. Время LLM выбрать более конкретный вариант используя контекст результата поиска."
         variants := Exec.defaultVariants 3
         reason := some "Модель предоставила неточный селектор - найдено 3 элементов вместо 1. Переформулируй условие для клика (добавь платформу, автора, источник и т.д.)" },
       none) ∧
    (Exec.defaultVariants 3).length ≤ 5 := by
  refine ⟨?_, rfl, rfl, rfl, by decide⟩
  intro page args
  have hred : Exec.buildLocatorFromStrategy page "text" args =
      (if Exec.argStr args "text" ≠ "" then
        (if Exec.argTruthy args "is_link" then
          (if Exec.argStr args "context" ≠ "" then
            Exec.locFirst (Exec.filterHasText
              (Exec.filterHasText (Exec.getByRole page "link")
                (Exec.argStr args "context"))
              (Exec.argStr args "text"))
          else
            Exec.locFirst (Exec.filterHasText (Exec.getByRole page "link")
              (Exec.argStr args "text")))
        else Exec.locFirst (Exec.getByText page (Exec.argStr args "text")))
      else []) := rfl
  rw [hred]
  split
  · split
    · split
      · exact List.length_take_le 1 _
      · exact List.length_take_le 1 _
    · exact List.length_take_le 1 _
  · simp

/-- Helper: `ActionExecutor.scroll` always returns `True`, whatever the
direction. -/
theorem scroll_snd_true (direction : String) (amount : Nat) :
    (Exec.scroll direction amount).2 = true := by
  simp only [Exec.scroll]
  split
  · rfl
  · split
    · rfl
    · rfl

set_option maxRecDepth 8000 in
/-- C10: a scroll direction that is neither (case-insensitively) "up" nor
"down" skips both key-press loops — no keys pressed — yet `scroll` still
returns `True`; and the agent's dispatch turns any scroll decision into a
`{"success": True}` result, recording it as a successful action. -/
theorem C10_scroll_silent_success (direction : String) (amount : Nat)
    (hup : pyLower direction ≠ "up") (hdown : pyLower direction ≠ "down") :
    Exec.scroll direction amount = ([], true) ∧
    (∀ (value : String),
      Agent.executeDecisionParsed {} probeOracle
        { action := some "scroll", value := some value } =
      ({ success := true },
       [Agent.BrowserOp.scroll (pyLower (if value == "" then "down" else value))])) := by
  constructor
  · simp [Exec.scroll, hup, hdown]
  · intro value
    have h1 : Agent.executeDecisionParsed {} probeOracle
        { action := some "scroll", value := some value } =
        Agent.finishResult "scroll"
          (some { success :=
            (Exec.scroll (pyLower (if value == "" then "down" else value)) 3).2 })
          [Agent.BrowserOp.scroll (pyLower (if value == "" then "down" else value))] := rfl
    rw [h1, scroll_snd_true]
    rfl

/-- C10 witness: instantiates the silent-scroll theorem at direction
"left" and a concrete scroll decision. -/
theorem C10_scroll_silent_success_witness :
    Exec.scroll "left" 3 = ([], true) ∧
    Agent.executeDecisionParsed {} probeOracle
      { action := some "scroll", value := some "left" } =
    ({ success := true },
     [Agent.BrowserOp.scroll (pyLower (if "left" == "" then "down" else "left"))]) :=
  ⟨(C10_scroll_silent_success "left" 3 (by decide) (by decide)).1,
   (C10_scroll_silent_success "left" 3 (by decide) (by decide)).2 "left"⟩

end Sosix
